import Mathlib

/-!
Verification of the scoring core of the smart-resume-filter repository.

The Python sources under `backend/app` are shallowly embedded here:
floats are modelled as exact rationals (`ℚ`), Python lists as `List`,
`None` as `Option.none`, and the external ML models (sentence embedder,
sentiment classifier, spaCy NER) as oracle parameters.  All definitions
are translated from `services/matching.py`, `services/sentiment.py`,
`services/resume_parser.py` and `routes/interviews.py`.
-/

namespace SmartResume

/-! ## Python primitives -/

/-- Python `str.lower()` restricted to ASCII (all lexicon entries and
keywords in this code base are ASCII). -/
def pyLower (s : String) : String :=
  String.mk (s.data.map Char.toLower)

/-- Characters treated as whitespace by Python `str.strip()` / `str.split()`. -/
def pyIsSpace (c : Char) : Bool :=
  c = ' ' || c = '\t' || c = '\n' || c = '\x0d' || c = '\x0b' || c = '\x0c'

/-- Python `str.strip()` on a character list. -/
def pyStripList (cs : List Char) : List Char :=
  ((cs.dropWhile pyIsSpace).reverse.dropWhile pyIsSpace).reverse

/-- Python `str.strip()`. -/
def pyStrip (s : String) : String :=
  String.mk (pyStripList s.data)

/-- Substring containment on character lists. -/
def substrList (needle : List Char) : List Char → Bool
  | [] => needle.isPrefixOf []
  | c :: rest => needle.isPrefixOf (c :: rest) || substrList needle rest

/-- Python `needle in hay` for strings (substring containment). -/
def pySubstr (needle hay : String) : Bool :=
  substrList needle.data hay.data

/-- Python `s.startswith(pre)`. -/
def pyStartsWith (s pre : String) : Bool :=
  pre.data.isPrefixOf s.data

/-- Numeric value of a digit run (the `int(...)`/`float(...)` conversion
applied to a regex group of digits). -/
def digitsToNat (cs : List Char) : ℕ :=
  cs.foldl (fun acc c => acc * 10 + (c.toNat - 48)) 0

/-- Round-half-to-even on an exact rational, Python's `round(x)` convention. -/
def pyRoundInt (x : ℚ) : ℤ :=
  let f : ℤ := ⌊x⌋
  let r : ℚ := x - (f : ℚ)
  if r < 1/2 then f
  else if 1/2 < r then f + 1
  else if f % 2 = 0 then f else f + 1

/-- Python `round(x, 1)` modelled on exact rationals. -/
def pyRound1 (x : ℚ) : ℚ :=
  (pyRoundInt (x * 10) : ℚ) / 10

/-! ## Data model (`models/resume.py`, `models/job.py`, `models/screening.py`) -/

/-- `SkillMatch` from `models/screening.py`. -/
structure SkillMatch where
  skill : String
  is_matched : Bool
  match_type : String
  confidence : ℚ
deriving DecidableEq

/-- `ScoreBreakdown` from `models/screening.py`. -/
structure ScoreBreakdown where
  skill_score : ℚ
  experience_score : ℚ
  education_score : ℚ
  skill_weight : ℚ
  experience_weight : ℚ
  education_weight : ℚ
deriving DecidableEq

/-- The fields of `ParsedResumeData` consumed by the matching service. -/
structure ParsedResumeData where
  name : String
  email : String
  phone : String
  skills : List String
  education : String
  experience : String
  years_of_experience : Option ℚ
deriving DecidableEq

/-- The fields of a `Resume` document consumed by the matching service. -/
structure Resume where
  id : String
  parsed_data : ParsedResumeData
deriving DecidableEq

/-- The fields of a `JobDescription` document consumed by the matching service. -/
structure JobDescription where
  required_skills : List String
  experience_required : String
  education_required : String
deriving DecidableEq

/-! ## Scoring engine (`services/matching.py`)

The sentence-embedding model is an oracle `String → List String → Option ℚ`
returning the best cosine similarity of the required skill against the
candidate skills (`none` models an exception inside the executor call).
`self.model` being `None` is modelled by an `Option` around the oracle. -/

/-- Best-cosine-similarity oracle standing for the sentence-transformer model. -/
def SimOracle : Type := String → List String → Option ℚ

/-- `MatchingService._semantic_skill_match` guarded by
`if self.model and candidate_skills:` from `_calculate_skill_match`:
accepts the best candidate similarity when it is at least 0.6. -/
def semanticGuard (model : Option SimOracle) (candidate_skills : List String)
    (required_skill : String) : Option ℚ :=
  match model with
  | none => none
  | some sim =>
    if candidate_skills.isEmpty then none
    else
      match sim required_skill candidate_skills with
      | none => none
      | some best => if (3 : ℚ)/5 ≤ best then some best else none

/-- One iteration of the `for req_skill in required_skills` loop of
`MatchingService._calculate_skill_match`: appends exactly one `SkillMatch`
and updates `matched_count`. -/
def skillStep (model : Option SimOracle) (candidate_skills : List String)
    (candidate_skills_lower : List String) (acc : List SkillMatch × ℚ)
    (req_skill : String) : List SkillMatch × ℚ :=
  let req_skill_lower := pyLower req_skill
  if req_skill_lower ∈ candidate_skills_lower then
    (acc.1 ++ [⟨req_skill, true, "exact", 1⟩], acc.2 + 1)
  else if candidate_skills_lower.any
      (fun cand_skill => pySubstr req_skill_lower cand_skill
        || pySubstr cand_skill req_skill_lower) then
    (acc.1 ++ [⟨req_skill, true, "partial", 4/5⟩], acc.2 + 4/5)
  else
    match semanticGuard model candidate_skills req_skill with
    | some conf => (acc.1 ++ [⟨req_skill, true, "semantic", conf⟩], acc.2 + conf)
    | none => (acc.1 ++ [⟨req_skill, false, "none", 0⟩], acc.2)

/-- `MatchingService._calculate_skill_match`. -/
def calculateSkillMatch (model : Option SimOracle)
    (candidate_skills required_skills : List String) : List SkillMatch × ℚ :=
  if required_skills.isEmpty then ([], 100)
  else
    let candidate_skills_lower := candidate_skills.map pyLower
    let folded := required_skills.foldl
      (skillStep model candidate_skills candidate_skills_lower) ([], 0)
    let skill_score := folded.2 / (required_skills.length : ℚ) * 100
    (folded.1, min skill_score 100)

/-- The record appended for one required skill by the loop body of
`_calculate_skill_match`, written as the rule cascade of that loop:
exact match first, then partial (substring either way), then semantic,
else a non-match record.  `skillStep` threads this same cascade through
the loop accumulator. -/
def skillMatchRecordFor (model : Option SimOracle)
    (candidate_skills : List String) (req_skill : String) : SkillMatch :=
  let candidate_skills_lower := candidate_skills.map pyLower
  let req_skill_lower := pyLower req_skill
  if req_skill_lower ∈ candidate_skills_lower then
    ⟨req_skill, true, "exact", 1⟩
  else if candidate_skills_lower.any
      (fun cand_skill => pySubstr req_skill_lower cand_skill
        || pySubstr cand_skill req_skill_lower) then
    ⟨req_skill, true, "partial", 4/5⟩
  else
    match semanticGuard model candidate_skills req_skill with
    | some conf => ⟨req_skill, true, "semantic", conf⟩
    | none => ⟨req_skill, false, "none", 0⟩

/-- `re.search(r'(\d+)', s)` : the first maximal run of digits in `s`. -/
def firstDigitRun (s : String) : Option ℕ :=
  let cs := s.data.dropWhile (fun c => !c.isDigit)
  let run := cs.takeWhile Char.isDigit
  if run.isEmpty then none
  else some (digitsToNat run)

/-- `MatchingService._calculate_experience_score`. -/
def calculateExperienceScore (experience_text : String) (years : Option ℚ)
    (required_experience : String) : ℚ :=
  if required_experience = "" then 80
  else
    match firstDigitRun required_experience with
    | none => 70
    | some n =>
      let req_years : ℚ := n
      match years with
      | some y =>
        if req_years ≤ y then 100
        else if req_years * (7/10) ≤ y then 80
        else if req_years * (1/2) ≤ y then 60
        else 40
      | none =>
        let exp_lower := pyLower experience_text
        if ["senior", "lead", "principal", "manager"].any
            (fun w => pySubstr w exp_lower) then
          if req_years ≤ 5 then 90 else 70
        else if ["mid", "intermediate"].any (fun w => pySubstr w exp_lower) then
          if req_years ≤ 3 then 80 else 50
        else if ["junior", "entry", "fresher", "intern"].any
            (fun w => pySubstr w exp_lower) then
          if req_years ≤ 1 then 70 else 30
        else 50

/-- The `education_levels` dict of `_calculate_education_score`
(insertion order preserved, as Python dicts iterate in insertion order). -/
def educationLevels : List (String × ℚ) :=
  [("phd", 100), ("doctorate", 100), ("master", 80), ("m.tech", 80),
   ("m.s.", 80), ("bachelor", 60), ("b.tech", 60), ("b.e.", 60),
   ("b.s.", 60), ("diploma", 40), ("certification", 30)]

/-- `MatchingService._calculate_education_score`. -/
def calculateEducationScore (education_text required_education : String) : ℚ :=
  if required_education = "" then 80
  else
    let edu_lower := pyLower education_text
    let req_lower := pyLower required_education
    let candidate_level : ℚ := educationLevels.foldl
      (fun acc p => if pySubstr p.1 edu_lower then max acc p.2 else acc) 0
    let required_level : ℚ :=
      ((educationLevels.find? (fun p => pySubstr p.1 req_lower)).map
        (fun p => p.2)).getD 60
    if required_level ≤ candidate_level then 100
    else if required_level - 20 ≤ candidate_level then 80
    else if required_level - 40 ≤ candidate_level then 60
    else 40

/-- The result dictionary built by `MatchingService._match_single_candidate`. -/
structure MatchResult where
  resume_id : String
  name : String
  email : String
  phone : String
  skills : List String
  education : String
  experience : String
  score : ℚ
  score_breakdown : ScoreBreakdown
  skill_matches : List SkillMatch
  matched_skills : List String
  matched_skills_count : ℕ
  recommendation : String
deriving DecidableEq

/-- The unrounded `overall_score` computed in `_match_single_candidate`. -/
def overallScore (model : Option SimOracle) (resume : Resume)
    (job : JobDescription) : ℚ :=
  let skill_score :=
    (calculateSkillMatch model resume.parsed_data.skills job.required_skills).2
  let experience_score := calculateExperienceScore resume.parsed_data.experience
    resume.parsed_data.years_of_experience job.experience_required
  let education_score := calculateEducationScore resume.parsed_data.education
    job.education_required
  skill_score * (7/10) + experience_score * (2/10) + education_score * (1/10)

/-- `MatchingService._match_single_candidate`. -/
def matchSingleCandidate (model : Option SimOracle) (resume : Resume)
    (job : JobDescription) : MatchResult :=
  let skill_pair :=
    calculateSkillMatch model resume.parsed_data.skills job.required_skills
  let skill_matches := skill_pair.1
  let skill_score := skill_pair.2
  let experience_score := calculateExperienceScore resume.parsed_data.experience
    resume.parsed_data.years_of_experience job.experience_required
  let education_score := calculateEducationScore resume.parsed_data.education
    job.education_required
  let score_breakdown : ScoreBreakdown :=
    ⟨skill_score, experience_score, education_score, 7/10, 2/10, 1/10⟩
  let overall_score :=
    skill_score * (7/10) + experience_score * (2/10) + education_score * (1/10)
  let recommendation :=
    if 75 ≤ overall_score then "highly_recommended"
    else if 60 ≤ overall_score then "recommended"
    else if 45 ≤ overall_score then "maybe"
    else "not_recommended"
  { resume_id := resume.id
    name := resume.parsed_data.name
    email := resume.parsed_data.email
    phone := resume.parsed_data.phone
    skills := resume.parsed_data.skills
    education := resume.parsed_data.education
    experience := resume.parsed_data.experience
    score := pyRound1 overall_score
    score_breakdown := score_breakdown
    skill_matches := skill_matches
    matched_skills := (skill_matches.filter (fun sm => sm.is_matched)).map
      (fun sm => sm.skill)
    matched_skills_count := (skill_matches.filter (fun sm => sm.is_matched)).length
    recommendation := recommendation }

/-- `MatchingService.match_candidates`: score every resume, then
`results.sort(key=lambda x: x["score"], reverse=True)` — a stable sort
descending on the (rounded) `score` field; Python's stable sort with this
comparator coincides with stable merge sort under `b.score ≤ a.score`. -/
def matchCandidates (model : Option SimOracle) (resumes : List Resume)
    (job : JobDescription) : List MatchResult :=
  (resumes.map (fun r => matchSingleCandidate model r job)).mergeSort
    (fun a b => decide (b.score ≤ a.score))

/-- The unsorted per-candidate results built by the loop of
`match_candidates`, one per input resume in input order. -/
def scoredResults (model : Option SimOracle) (resumes : List Resume)
    (job : JobDescription) : List MatchResult :=
  resumes.map (fun r => matchSingleCandidate model r job)

/-! ## Sentiment analysis (`services/sentiment.py`) -/

/-- A sentence separator of `re.split(r'[.!?]+', text)`. -/
def sepChar (c : Char) : Bool :=
  c = '.' || c = '!' || c = '?'

/-- Split a character list at maximal runs of `[.!?]`, as
`re.split(r'[.!?]+', text)` does; `inRun` records whether the previous
character belonged to a separator run, so consecutive separators yield a
single split. -/
def splitSepsGo (cs : List Char) (acc : List Char) (inRun : Bool) :
    List (List Char) :=
  match cs with
  | [] => [acc.reverse]
  | c :: rest =>
    if sepChar c then
      if inRun then splitSepsGo rest acc true
      else acc.reverse :: splitSepsGo rest [] true
    else splitSepsGo rest (c :: acc) false

/-- `SentimentAnalysisService._split_into_sentences`. -/
def splitIntoSentences (text : String) : List String :=
  ((splitSepsGo text.data [] false).map (fun s => pyStrip (String.mk s))).filter
    (fun s => s ≠ "")

/-- The `positive_words` set of `SentimentAnalysisService`. -/
def positiveWords : List String :=
  ["excellent", "great", "amazing", "fantastic", "wonderful", "outstanding",
   "passionate", "excited", "enthusiastic", "confident", "strong", "successful",
   "achieved", "accomplished", "led", "improved", "increased", "delivered",
   "innovative", "creative", "motivated", "dedicated", "committed", "experienced",
   "expertise", "proficient", "skilled", "capable", "effective", "efficient"]

/-- The `negative_words` set of `SentimentAnalysisService`. -/
def negativeWords : List String :=
  ["difficult", "challenging", "struggled", "failed", "problem", "issue",
   "weakness", "concern", "worried", "nervous", "unsure", "unclear",
   "confused", "frustrated", "disappointed", "unfortunately", "however",
   "but", "although", "despite", "lack", "limited", "basic"]

/-- Sentiment classifier oracle: `none` at the outer level models
`self.sentiment_analyzer is None`; `none` from the inner call models an
exception inside the executor (the code then falls back to keywords). -/
def SentOracle : Type := String → Option (String × ℚ)

/-- Loop state of `_analyze_sentiment`:
(positive, negative, neutral counts, positive phrases, negative phrases). -/
structure SentState where
  pos : ℕ
  neg : ℕ
  neu : ℕ
  posP : List String
  negP : List String
deriving DecidableEq

/-- One iteration of the `for sentence in sentences` loop of
`SentimentAnalysisService._analyze_sentiment`. -/
def sentimentStep (classifier : Option SentOracle) (st : SentState)
    (sentence : String) : SentState :=
  let sentence_lower := pyLower sentence
  let excerpt := String.mk (sentence.data.take 100)
  let keywordPath : SentState :=
    let pos_words := positiveWords.countP (fun w => pySubstr w sentence_lower)
    let neg_words := negativeWords.countP (fun w => pySubstr w sentence_lower)
    if neg_words < pos_words then
      let posP := if 2 ≤ pos_words then st.posP ++ [excerpt] else st.posP
      { st with pos := st.pos + 1, posP := posP }
    else if pos_words < neg_words then
      let negP := if 2 ≤ neg_words then st.negP ++ [excerpt] else st.negP
      { st with neg := st.neg + 1, negP := negP }
    else { st with neu := st.neu + 1 }
  match classifier with
  | none => keywordPath
  | some cl =>
    match cl (String.mk (sentence.data.take 512)) with
    | none => keywordPath
    | some (label, score) =>
      if label = "POSITIVE" then
        let posP := if (4 : ℚ)/5 < score then st.posP ++ [excerpt] else st.posP
        { st with pos := st.pos + 1, posP := posP }
      else
        let negP := if (4 : ℚ)/5 < score then st.negP ++ [excerpt] else st.negP
        { st with neg := st.neg + 1, negP := negP }

/-- `SentimentAnalysisService._analyze_sentiment`: returns
(sentiment score, overall sentiment, positive phrases, negative phrases). -/
def analyzeSentiment (classifier : Option SentOracle) (sentences : List String) :
    ℚ × String × List String × List String :=
  let st := sentences.foldl (sentimentStep classifier) ⟨0, 0, 0, [], []⟩
  let total := st.pos + st.neg + st.neu
  if total = 0 then (50, "neutral", [], [])
  else
    let sentiment_score : ℚ := ((st.pos * 100 + st.neu * 50 : ℕ) : ℚ) / (total : ℚ)
    let overall_sentiment :=
      if st.neg * 2 < st.pos then "positive"
      else if st.pos * 2 < st.neg then "negative"
      else "neutral"
    (sentiment_score, overall_sentiment, st.posP, st.negP)

/-! ## Interview analysis blend step (`routes/interviews.py`, `analyze_interview`) -/

/-- The fields of a `ScreeningResult` document touched or framed by the
blend step in `analyze_interview`. -/
structure ScreeningResult where
  overall_score : ℚ
  score_breakdown : ScoreBreakdown
  skill_matches : List SkillMatch
  recommendation : String
  interview_id : Option String
  interview_sentiment_score : Option ℚ
  interview_confidence_score : Option ℚ
  final_score : Option ℚ
deriving DecidableEq

/-- The sentiment/confidence scores of a stored `SentimentAnalysis`. -/
structure SentimentAnalysisOut where
  sentiment_score : ℚ
  confidence_score : ℚ
deriving DecidableEq

/-- The `if screening_result:` block of `analyze_interview`
(`routes/interviews.py` lines 227–239): records the interview linkage and
recomputes `final_score`; no other field is assigned. -/
def blendStep (screening_result : ScreeningResult) (interview_id : String)
    (analysis : SentimentAnalysisOut) : ScreeningResult :=
  { screening_result with
    interview_id := some interview_id
    interview_sentiment_score := some analysis.sentiment_score
    interview_confidence_score := some analysis.confidence_score
    final_score := some (screening_result.overall_score * (6/10)
      + analysis.sentiment_score * (2/10)
      + analysis.confidence_score * (2/10)) }

/-! ## A small backtracking regex engine

Python `re` patterns used by the parser services are transcribed into the
`RE` syntax below and run by a continuation-passing backtracking matcher:
alternatives are tried left to right, `star` is greedy and `starL` lazy,
exactly as in `re`.  The matcher is structurally recursive on a fuel
argument so that it reduces inside the kernel; `reFuel` is a generous
upper bound on the recursion depth actually needed (one unit per regex
node entered plus one per quantifier iteration, each iteration being
forced to consume at least one character). -/

/-- Regular expression syntax: empty, single-character class, sequencing,
alternation (left first), greedy star, lazy star, word boundary `\b`,
and start-of-input `^`. -/
inductive RE where
  | eps : RE
  | cls : (Char → Bool) → RE
  | seq : RE → RE → RE
  | alt : RE → RE → RE
  | star : RE → RE
  | starL : RE → RE
  | wb : RE
  | bol : RE

/-- Number of syntax nodes of a regex. -/
def reSize : RE → Nat
  | .eps => 1
  | .cls _ => 1
  | .seq a b => reSize a + reSize b + 1
  | .alt a b => reSize a + reSize b + 1
  | .star a => reSize a + 1
  | .starL a => reSize a + 1
  | .wb => 1
  | .bol => 1

/-- Word characters for `\b` (ASCII model of `re`'s `\w`). -/
def isWordChar (c : Char) : Bool :=
  c.isAlphanum || c = '_'

/-- Word-character status of an optional character (`none` = out of input). -/
def isWordOpt : Option Char → Bool
  | none => false
  | some c => isWordChar c

/-- `\b` holds between the previous character and the rest of the input. -/
def wordBoundary (prev : Option Char) (cs : List Char) : Bool :=
  isWordOpt prev != isWordOpt cs.head?

/-- The backtracking matcher.  `prev` is the character just before the
current position (for `\b` and `^`), `k` the continuation receiving the
updated position.  Quantifier iterations that consume nothing are cut off,
as in `re`. -/
def matF : Nat → RE → Option Char → List Char →
    (Option Char → List Char → Option (List Char)) → Option (List Char)
  | 0, _, _, _, _ => none
  | _ + 1, .eps, prev, cs, k => k prev cs
  | _ + 1, .cls p, _, cs, k =>
    match cs with
    | [] => none
    | c :: rest => if p c then k (some c) rest else none
  | fuel + 1, .seq a b, prev, cs, k =>
    matF fuel a prev cs (fun p2 cs2 => matF fuel b p2 cs2 k)
  | fuel + 1, .alt a b, prev, cs, k =>
    (matF fuel a prev cs k).orElse (fun _ => matF fuel b prev cs k)
  | fuel + 1, .star a, prev, cs, k =>
    (matF fuel a prev cs (fun p2 cs2 =>
      if cs2.length < cs.length then matF fuel (.star a) p2 cs2 k
      else none)).orElse (fun _ => k prev cs)
  | fuel + 1, .starL a, prev, cs, k =>
    (k prev cs).orElse (fun _ =>
      matF fuel a prev cs (fun p2 cs2 =>
        if cs2.length < cs.length then matF fuel (.starL a) p2 cs2 k
        else none))
  | _ + 1, .wb, prev, cs, k => if wordBoundary prev cs then k prev cs else none
  | _ + 1, .bol, prev, cs, k => if prev.isNone then k prev cs else none

/-- Fuel bound sufficient for `matF` on the given input. -/
def reFuel (re : RE) (cs : List Char) : Nat :=
  (reSize re + 1) * (cs.length + 2)

/-- Try to match `re` at the current position; returns the rest of the
input after the match. -/
def matTop (re : RE) (prev : Option Char) (cs : List Char) :
    Option (List Char) :=
  matF (reFuel re cs) re prev cs (fun _ rest => some rest)

/-- `re.search` scan: try each start position left to right; returns the
previous character at the match position, the suffix at the match position
and the rest after the match. -/
def reSearchGo (re : RE) (prev : Option Char) (cs : List Char) :
    Option (Option Char × List Char × List Char) :=
  match matTop re prev cs with
  | some rest => some (prev, cs, rest)
  | none =>
    match cs with
    | [] => none
    | c :: rest => reSearchGo re (some c) rest

/-- `re.search(pattern, s)` returning `match.group(0)`. -/
def reSearch (re : RE) (s : String) : Option String :=
  (reSearchGo re none s.data).map
    (fun pr => String.mk (pr.2.1.take (pr.2.1.length - pr.2.2.length)))

/-- `re.search(pattern, s) is not None`. -/
def reTest (re : RE) (s : String) : Bool :=
  (reSearchGo re none s.data).isSome

/-- `re.findall` (for patterns that cannot match the empty string):
collect non-overlapping matches left to right, resuming after each match. -/
def findAllGo : Nat → RE → Option Char → List Char → List String
  | 0, _, _, _ => []
  | fuel + 1, re, prev, cs =>
    match reSearchGo re prev cs with
    | none => []
    | some (patPrev, at_, rest) =>
      let m := at_.take (at_.length - rest.length)
      let nextPrev := match m.getLast? with
        | some c => some c
        | none => patPrev
      String.mk m ::
        (if rest.length < cs.length then findAllGo fuel re nextPrev rest
         else [])

/-- `re.findall(pattern, s)` (whole-match strings). -/
def reFindAll (re : RE) (s : String) : List String :=
  findAllGo (s.data.length + 1) re none s.data

/-! ### Regex builders -/

/-- A regex that never matches. -/
def rfail : RE :=
  RE.cls (fun _ => false)

/-- Sequence a list of regexes. -/
def rseq (l : List RE) : RE :=
  l.foldr RE.seq RE.eps

/-- Alternation over a list, tried left to right. -/
def altL (l : List RE) : RE :=
  match l with
  | [] => rfail
  | [r] => r
  | r :: rest => RE.alt r (altL rest)

/-- A single case-sensitive character. -/
def chr (c : Char) : RE :=
  RE.cls (fun x => x = c)

/-- A single case-insensitive character (ASCII). -/
def chrCI (c : Char) : RE :=
  RE.cls (fun x => x.toLower = c.toLower)

/-- Case-sensitive literal string. -/
def lit (s : String) : RE :=
  rseq (s.data.map chr)

/-- Case-insensitive literal string. -/
def litCI (s : String) : RE :=
  rseq (s.data.map chrCI)

/-- Greedy `+`. -/
def plus (a : RE) : RE :=
  RE.seq a (RE.star a)

/-- Greedy `?`. -/
def opt (a : RE) : RE :=
  RE.alt a RE.eps

/-- Exactly `n` repetitions. -/
def repN : Nat → RE → RE
  | 0, _ => RE.eps
  | n + 1, a => RE.seq a (repN n a)

/-- At most `n` repetitions, greedy. -/
def atMost : Nat → RE → RE
  | 0, _ => RE.eps
  | n + 1, a => RE.alt (RE.seq a (atMost n a)) RE.eps

/-- Between `lo` and `hi` repetitions, greedy. -/
def repRange (lo hi : Nat) (a : RE) : RE :=
  RE.seq (repN lo a) (atMost (hi - lo) a)

/-- `\d`. -/
def dRE : RE :=
  RE.cls Char.isDigit

/-- `\s` (Python whitespace). -/
def sRE : RE :=
  RE.cls pyIsSpace

/-- `\w`. -/
def wRE : RE :=
  RE.cls isWordChar

/-! ## Resume parser (`services/resume_parser.py`)

The spaCy model is an oracle: `_extract_name` receives the person entities
recognized over the first five lines (`first_lines_doc.ents`) and over the
full document (`doc.ents`) as explicit lists. -/

/-- Python `s.split(sep)` for a one-character separator (keeps empties). -/
def splitCharGo (sep : Char) (cs : List Char) (acc : List Char) :
    List (List Char) :=
  match cs with
  | [] => [acc.reverse]
  | c :: rest =>
    if c = sep then acc.reverse :: splitCharGo sep rest []
    else splitCharGo sep rest (c :: acc)

/-- Python `s.split('\n')` as strings. -/
def pySplitNl (s : String) : List String :=
  (splitCharGo '\x0a' s.data []).map String.mk

/-- Python `s.split()` (split on whitespace runs, no empties). -/
def pySplitWs (s : String) : List String :=
  ((splitCharGo ' ' (s.data.map (fun c => if pyIsSpace c then ' ' else c)) []).map
    String.mk).filter (fun w => w ≠ "")

/-- Python `str.capitalize()` (ASCII). -/
def pyCapitalize (s : String) : String :=
  match s.data with
  | [] => ""
  | c :: rest => String.mk (c.toUpper :: rest.map Char.toLower)

/-- One step of Python `str.title()` (ASCII): uppercase a letter after a
non-letter, lowercase a letter after a letter. -/
def pyTitleGo : List Char → Bool → List Char
  | [], _ => []
  | c :: rest, prevAlpha =>
    (if c.isAlpha then (if prevAlpha then c.toLower else c.toUpper) else c)
      :: pyTitleGo rest c.isAlpha

/-- Python `str.title()` (ASCII). -/
def pyTitle (s : String) : String :=
  String.mk (pyTitleGo s.data false)

/-- Python `str.upper()` (ASCII). -/
def pyUpper (s : String) : String :=
  String.mk (s.data.map Char.toUpper)

/-- Python `s.rstrip(':')`. -/
def rstripColon (s : String) : String :=
  String.mk ((s.data.reverse.dropWhile (fun c => c = ':')).reverse)

/-- Python `s[:n]`. -/
def pyTake (n : ℕ) (s : String) : String :=
  String.mk (s.data.take n)

/-- A spaCy entity: label, covered text, and start character offset. -/
structure Ent where
  label : String
  text : String
  start_char : ℕ
deriving DecidableEq

/-! ### Skills extraction (`_extract_skills`) -/

/-- The `skills_database` set literal, in source order.  (A Python `set`
iterates in an implementation-defined order; this model fixes the literal
order.  The two entries written twice in the literal, "swift" and
"gitlab", appear once here, as in the set.) -/
def skillsDatabase : List String :=
  ["python", "java", "javascript", "typescript", "c++", "c#", "ruby", "go",
   "golang", "rust", "swift", "kotlin", "php", "scala", "r", "matlab", "perl",
   "shell", "bash",
   "html", "css", "sass", "less", "react", "reactjs", "react.js", "angular",
   "angularjs", "vue", "vuejs", "vue.js", "next.js", "nextjs", "nuxt",
   "svelte", "jquery", "bootstrap", "tailwind", "tailwindcss", "material-ui",
   "chakra", "webpack", "vite", "babel",
   "node.js", "nodejs", "express", "expressjs", "django", "flask", "fastapi",
   "spring", "spring boot", "springboot", ".net", "asp.net", "rails",
   "ruby on rails", "laravel", "nest.js", "nestjs", "koa", "hapi",
   "mysql", "postgresql", "postgres", "mongodb", "redis", "elasticsearch",
   "cassandra", "dynamodb", "firebase", "sqlite", "oracle", "sql server",
   "mariadb", "neo4j",
   "aws", "amazon web services", "azure", "gcp", "google cloud", "docker",
   "kubernetes", "k8s", "jenkins", "gitlab", "github actions", "terraform",
   "ansible", "nginx", "apache", "linux", "unix", "ci/cd", "devops",
   "machine learning", "deep learning", "tensorflow", "pytorch", "keras",
   "scikit-learn", "pandas", "numpy", "scipy", "matplotlib", "seaborn", "nlp",
   "natural language processing", "computer vision", "opencv",
   "data analysis", "data science", "big data", "hadoop", "spark",
   "android", "ios", "react native", "flutter", "objective-c", "xamarin",
   "git", "github", "bitbucket", "jira", "confluence", "agile", "scrum",
   "rest", "restful", "graphql", "api", "microservices", "soap", "grpc",
   "unit testing", "jest", "pytest", "selenium", "cypress",
   "communication", "leadership", "teamwork", "problem solving", "analytical",
   "project management", "time management", "critical thinking"]

/-- The regex `r'\b' + re.escape(skill) + r'\b'` of `_extract_skills`
(the skill is matched literally between word boundaries). -/
def wordMatchRE (skill : String) : RE :=
  rseq [RE.wb, lit skill, RE.wb]

/-- The display casing of `_extract_skills`:
`skill.title() if len(skill) > 2 else skill.upper()`. -/
def formatSkill (skill : String) : String :=
  if 2 < skill.length then pyTitle skill else pyUpper skill

/-- The `found_skills` list of `_extract_skills`: lexicon entries that
whole-word match the lowercased text, formatted for display. -/
def foundSkills (text : String) : List String :=
  (skillsDatabase.filter
    (fun skill => reTest (wordMatchRE skill) (pyLower text))).map formatSkill

/-- The dedup loop of `_extract_skills`: drop entries whose lowercase form
is already in `seen`, preserving first-seen order. -/
def dedupCIGo : List String → List String → List String
  | [], _ => []
  | s :: rest, seen =>
    if pyLower s ∈ seen then dedupCIGo rest seen
    else s :: dedupCIGo rest (pyLower s :: seen)

/-- `ResumeParserService._extract_skills`. -/
def extractSkills (text : String) : List String :=
  (dedupCIGo (foundSkills text) []).take 20

/-! ### Email, phone, links -/

/-- `r'\b[A-Za-z0-9._%+-]+@[A-Za-z0-9.-]+\.[A-Z|a-z]{2,}\b'`. -/
def emailRE : RE :=
  rseq [RE.wb,
    plus (RE.cls (fun c => c.isAlphanum || c = '.' || c = '_' || c = '%'
      || c = '+' || c = '-')),
    chr '@',
    plus (RE.cls (fun c => c.isAlphanum || c = '.' || c = '-')),
    chr '.',
    RE.cls (fun c => c.isAlpha || c = '|'),
    RE.cls (fun c => c.isAlpha || c = '|'),
    RE.star (RE.cls (fun c => c.isAlpha || c = '|')),
    RE.wb]

/-- `ResumeParserService._extract_email`. -/
def extractEmail (text : String) : String :=
  (reSearch emailRE text).getD ""

/-- `[-.\s]`. -/
def dashDotSpace : RE :=
  RE.cls (fun c => c = '-' || c = '.' || pyIsSpace c)

/-- `r'\+?\d{1,3}[-.\s]?\(?\d{3}\)?[-.\s]?\d{3}[-.\s]?\d{4}'`. -/
def phoneRE1 : RE :=
  rseq [opt (chr '+'), repRange 1 3 dRE, opt dashDotSpace, opt (chr '('),
    repN 3 dRE, opt (chr ')'), opt dashDotSpace, repN 3 dRE,
    opt dashDotSpace, repN 4 dRE]

/-- `r'\+?\d{10,13}'`. -/
def phoneRE2 : RE :=
  rseq [opt (chr '+'), repRange 10 13 dRE]

/-- `r'\(\d{3}\)\s?\d{3}[-.\s]?\d{4}'`. -/
def phoneRE3 : RE :=
  rseq [chr '(', repN 3 dRE, chr ')', opt sRE, repN 3 dRE, opt dashDotSpace,
    repN 4 dRE]

/-- `ResumeParserService._extract_phone`: the patterns are tried in order. -/
def extractPhone (text : String) : String :=
  (((reSearch phoneRE1 text).orElse (fun _ => reSearch phoneRE2 text)).orElse
    (fun _ => reSearch phoneRE3 text)).getD ""

/-- `r'linkedin\.com/in/[\w-]+'` (IGNORECASE). -/
def linkedinRE : RE :=
  rseq [litCI "linkedin.com/in/", plus (RE.cls (fun c => isWordChar c || c = '-'))]

/-- `ResumeParserService._extract_linkedin`. -/
def extractLinkedin (text : String) : Option String :=
  (reSearch linkedinRE text).map (fun m => "https://" ++ m)

/-- `r'github\.com/[\w-]+'` (IGNORECASE). -/
def githubRE : RE :=
  rseq [litCI "github.com/", plus (RE.cls (fun c => isWordChar c || c = '-'))]

/-- `ResumeParserService._extract_github`. -/
def extractGithub (text : String) : Option String :=
  (reSearch githubRE text).map (fun m => "https://" ++ m)

/-! ### Name extraction (`_extract_name` and helpers) -/

/-- The `false_positives` set of `_is_valid_name`. -/
def nameFalsePositives : List String :=
  ["resume", "cv", "curriculum vitae", "profile", "summary",
   "objective", "experience", "education", "skills", "contact",
   "references", "phone", "email", "address", "linkedin", "github",
   "university", "college", "school", "institute", "inc", "llc", "ltd",
   "company", "corporation", "technologies", "solutions", "services",
   "january", "february", "march", "april", "may", "june", "july",
   "august", "september", "october", "november", "december",
   "project", "manager", "developer", "engineer", "analyst", "intern"]

/-- Strip hyphens, apostrophes and periods from a word, as the
`word.replace` chain of `_is_valid_name` does. -/
def cleanNameWord (w : String) : List Char :=
  w.data.filter (fun c => c ≠ '-' && c ≠ Char.ofNat 39 && c ≠ '.')

/-- `ResumeParserService._is_valid_name`. -/
def isValidName (name : String) : Bool :=
  if name = "" || name.length < 2 then false
  else
    let words := pySplitWs name
    if !(1 ≤ words.length && words.length ≤ 5) then false
    else if pyLower name ∈ nameFalsePositives then false
    else if words.any (fun w => pyLower w ∈ nameFalsePositives) then false
    else words.all (fun w =>
      let clean := cleanNameWord w
      !clean.isEmpty && clean.all Char.isAlpha)

/-- `ResumeParserService._is_name_word`. -/
def isNameWord (w : String) : Bool :=
  let clean := cleanNameWord w
  (!clean.isEmpty && clean.all Char.isAlpha) && 1 ≤ clean.length

/-- The `headers` set of `_is_section_header`. -/
def sectionHeaders : List String :=
  ["resume", "cv", "curriculum vitae", "profile", "summary", "objective",
   "experience", "work experience", "professional experience", "employment",
   "education", "academic", "qualifications", "skills", "technical skills",
   "projects", "certifications", "achievements", "contact", "references"]

/-- `ResumeParserService._is_section_header`. -/
def isSectionHeader (line : String) : Bool :=
  rstripColon (pyStrip (pyLower line)) ∈ sectionHeaders

/-- `ResumeParserService._extract_name_from_email`. -/
def extractNameFromEmail (email : String) : String :=
  if email = "" || !pySubstr "@" email then ""
  else
    let local_part := email.data.takeWhile (fun c => c ≠ '@')
    let no_digits := local_part.filter (fun c => !c.isDigit)
    let pieces := (splitCharGo ' '
      (no_digits.map (fun c => if c = '.' || c = '_' || c = '-' then ' ' else c))
      []).map String.mk
    let parts := pieces.filter
      (fun p => 2 ≤ p.length && !p.data.isEmpty && p.data.all Char.isAlpha)
    if 2 ≤ parts.length then
      String.intercalate " " ((parts.take 2).map pyCapitalize)
    else
      match parts with
      | [p] => if 3 ≤ p.length then pyCapitalize p else ""
      | _ => ""

/-- Strategy 1 of `_extract_name`: first valid PERSON entity among the
entities recognized over the first five lines. -/
def nameStrategy1 (ents5 : List Ent) : Option String :=
  (ents5.filterMap (fun e =>
    let nm := pyStrip e.text
    if e.label = "PERSON" && isValidName nm then some nm else none)).head?

/-- Strategy 2 of `_extract_name`: first of the first three lines that,
stripped, is nonempty, is no section header, has no `@` or digit, and is
2–4 name-like words. -/
def nameStrategy2 (lines : List String) : Option String :=
  ((lines.take 3).map pyStrip).find? (fun l =>
    l ≠ "" &&
    !(isSectionHeader l || pySubstr "@" l || l.data.any Char.isDigit) &&
    (let words := pySplitWs l
     (2 ≤ words.length && words.length ≤ 4) && words.all isNameWord))

/-- Strategy 4 of `_extract_name`: first valid PERSON entity of the full
document starting before character offset 500. -/
def nameStrategy4 (docEnts : List Ent) : Option String :=
  (docEnts.filterMap (fun e =>
    let nm := pyStrip e.text
    if e.label = "PERSON" && decide (e.start_char < 500) && isValidName nm
    then some nm else none)).head?

/-- `ResumeParserService._extract_name`.  `ents5` are the PERSON-candidate
entities of `first_lines_doc`, `docEnts` those of the whole document. -/
def extractName (ents5 docEnts : List Ent) (text : String) : String :=
  let lines := pySplitNl (pyStrip text)
  match nameStrategy1 ents5 with
  | some n => n
  | none =>
    match nameStrategy2 lines with
    | some n => n
    | none =>
      let email := extractEmail text
      let name_from_email := if email ≠ "" then extractNameFromEmail email else ""
      if name_from_email ≠ "" then name_from_email
      else
        match nameStrategy4 docEnts with
        | some n => n
        | none => "Unknown"

/-! ### Section splitting

`_extract_education` / `_extract_experience` split the text with
`re.split(r'\n|(?=\b(?:kw1|kw2|...)\b)', text, flags=re.IGNORECASE)`:
a consuming split at each newline plus a zero-width split wherever one of
the keywords follows at a word boundary.  Empty pieces are produced
exactly as by `re.split` and dropped by the subsequent
`[l.strip() for l in lines if l.strip()]` comprehension. -/

/-- Does `(?=\b(?:kws)\b)` hold at the current position? -/
def lookKwHit (kws : List String) (prev : Option Char) (cs : List Char) : Bool :=
  wordBoundary prev cs &&
    kws.any (fun kw => (matTop (rseq [litCI kw, RE.wb]) prev cs).isSome)

/-- Scanner for the lookahead split: cut (consuming) at `'\n'`, cut
(non-consuming) where a keyword lookahead fires. -/
def lookSplitGo (kws : List String) (cs : List Char) (prev : Option Char)
    (acc : List Char) : List (List Char) :=
  match cs with
  | [] => [acc.reverse]
  | c :: rest =>
    if c = '\n' then acc.reverse :: lookSplitGo kws rest (some c) []
    else if lookKwHit kws prev (c :: rest) then
      acc.reverse :: lookSplitGo kws rest (some c) [c]
    else lookSplitGo kws rest (some c) (c :: acc)

/-- The `lines` list of the section extractors after the comprehension
`[l.strip() for l in lines if l.strip()]`. -/
def sectionLines (kws : List String) (text : String) : List String :=
  (((lookSplitGo kws text.data none []).map
    (fun cs => pyStrip (String.mk cs)))).filter (fun l => l ≠ "")

/-- Lookahead keywords of the `_extract_education` split. -/
def eduSplitKws : List String :=
  ["experience", "skills", "projects", "certifications", "computer skills",
   "technical skills", "work history", "employment"]

/-- Lookahead keywords of the `_extract_experience` split. -/
def expSplitKws : List String :=
  ["education", "skills", "projects", "certifications", "technical skills",
   "academic"]

/-! ### Education extraction (`_extract_education`) -/

/-- `start_headers` of `_extract_education`. -/
def eduStartHeaders : List String :=
  ["education", "academic background", "academic qualifications",
   "qualifications", "educational background", "academics"]

/-- `end_headers` of `_extract_education`. -/
def eduEndHeaders : List String :=
  ["experience", "work history", "employment", "skills", "projects",
   "certifications", "achievements", "publications", "references",
   "technical skills", "professional experience", "work experience",
   "computer skills", "programming", "languages:", "tools", "frameworks",
   "abilities", "competencies", "expertise"]

/-- The prefixes of `re.match(r'^(python|java|c\+\+|javascript|html|css|sql|react|node)', ...)`. -/
def skillListPrefixes : List String :=
  ["python", "java", "c++", "javascript", "html", "css", "sql", "react", "node"]

/-- The section-collection loop of `_extract_education`; returns the
collected `education_lines`. -/
def eduLoopGo (lines : List String) (inSec : Bool) (acc : List String) :
    List String :=
  match lines with
  | [] => acc.reverse
  | line :: ls =>
    let ll := pyStrip (pyLower line)
    if ll = "" then eduLoopGo ls inSec acc
    else if (eduStartHeaders.any (fun h => pyStartsWith ll h || ll = h))
        && ll.length < 50 then
      eduLoopGo ls true acc
    else if inSec
        && (eduEndHeaders.any (fun h => pyStartsWith ll h || pySubstr h (pyTake 30 ll)))
        && ll.length < 50 then
      acc.reverse
    else if inSec then
      if skillListPrefixes.any (fun w => pyStartsWith ll w) then acc.reverse
      else eduLoopGo ls inSec (pyStrip line :: acc)
    else eduLoopGo ls inSec acc

/-- `r'([A-Z][a-zA-Z\s\-,]+(?:University|College|Institute|School)[^|]*?(?:19|20)\d{2})'`. -/
def uniRE : RE :=
  rseq [RE.cls Char.isUpper,
    plus (RE.cls (fun c => c.isAlpha || pyIsSpace c || c = '-' || c = ',')),
    altL [lit "University", lit "College", lit "Institute", lit "School"],
    RE.starL (RE.cls (fun c => c ≠ '|')),
    RE.alt (lit "19") (lit "20"), repN 2 dRE]

/-- The degree-keyword alternation of the degree pattern (IGNORECASE). -/
def degreePrefix : RE :=
  altL [litCI "bachelor", litCI "master",
    rseq [litCI "ph", opt (chr '.'), litCI "d"],
    rseq [litCI "b", opt (chr '.'), litCI "s", opt (chr '.')],
    rseq [litCI "m", opt (chr '.'), litCI "s", opt (chr '.')],
    rseq [litCI "b", opt (chr '.'), litCI "tech"],
    rseq [litCI "m", opt (chr '.'), litCI "tech"],
    rseq [litCI "b", opt (chr '.'), litCI "e", opt (chr '.')],
    rseq [litCI "m", opt (chr '.'), litCI "e", opt (chr '.')]]

/-- `r'((?:Bachelor|...)[^|]*?(?:in\s+)?[A-Za-z\s]+(?:Science|Engineering|Technology|Arts|Commerce)?)'` (IGNORECASE). -/
def degreeRE : RE :=
  rseq [degreePrefix,
    RE.starL (RE.cls (fun c => c ≠ '|')),
    opt (rseq [litCI "in", plus sRE]),
    plus (RE.cls (fun c => c.isAlpha || pyIsSpace c)),
    opt (altL [litCI "science", litCI "engineering", litCI "technology",
      litCI "arts", litCI "commerce"])]

/-- `r'(?:GPA|CGPA)[:\s]*(\d+\.?\d*(?:\s*/\s*\d+\.?\d*)?)'` (IGNORECASE). -/
def gpaRE : RE :=
  rseq [RE.alt (litCI "gpa") (litCI "cgpa"),
    RE.star (RE.cls (fun c => c = ':' || pyIsSpace c)),
    plus dRE, opt (chr '.'), RE.star dRE,
    opt (rseq [RE.star sRE, chr '/', RE.star sRE, plus dRE, opt (chr '.'),
      RE.star dRE])]

/-- `match.group(1)` of the GPA pattern, reconstructed from the whole
match: drop the `GPA`/`CGPA` keyword and the greedy `[:\s]*` run (which
cannot overlap the digits that follow). -/
def gpaGroup1 (m : String) : String :=
  let afterKw := if pyStartsWith (pyLower m) "cgpa" then m.data.drop 4
    else m.data.drop 3
  String.mk (afterKw.dropWhile (fun c => c = ':' || pyIsSpace c))

/-- `result[:600] if len(result) > 600 else result`. -/
def truncate600 (s : String) : String :=
  if 600 < s.length then pyTake 600 s else s

/-- `result[:1000] if len(result) > 1000 else result`. -/
def truncate1000 (s : String) : String :=
  if 1000 < s.length then pyTake 1000 s else s

/-- The fallback `education_info` list of `_extract_education`. -/
def eduFallbackInfo (text : String) : List String :=
  let uni := ((reFindAll uniRE text).take 2).map pyStrip
  let withDegrees := ((reFindAll degreeRE text).take 2).foldl
    (fun acc m =>
      let cleaned := pyStrip m
      if cleaned ≠ "" && cleaned ∉ acc then acc ++ [cleaned] else acc) uni
  match reSearch gpaRE text with
  | some m => withDegrees ++ ["GPA: " ++ gpaGroup1 m]
  | none => withDegrees

/-- `ResumeParserService._extract_education`. -/
def extractEducation (text : String) : String :=
  let lines := sectionLines eduSplitKws text
  let education_lines := eduLoopGo lines false []
  if !education_lines.isEmpty then
    truncate600 (String.intercalate " | " education_lines)
  else
    let education_info := eduFallbackInfo text
    if !education_info.isEmpty then
      truncate600 (String.intercalate " | " education_info)
    else ""

/-! ### Experience extraction (`_extract_experience` and helpers) -/

/-- `start_headers` of `_extract_experience`. -/
def expStartHeaders : List String :=
  ["experience", "work history", "employment history", "employment",
   "professional experience", "work experience", "career history",
   "professional background", "relevant experience", "internship",
   "internships"]

/-- `end_headers` of `_extract_experience`. -/
def expEndHeaders : List String :=
  ["education", "skills", "projects", "certifications", "achievements",
   "publications", "references", "technical skills", "academic",
   "qualifications", "training", "courses", "interests", "hobbies",
   "computer skills", "programming skills", "languages"]

/-- The section-collection loop of `_extract_experience`; returns the
collected `experience_lines` and the `found_experience_header` flag. -/
def expLoopGo (lines : List String) (inSec fh : Bool) (acc : List String) :
    List String × Bool :=
  match lines with
  | [] => (acc.reverse, fh)
  | line :: ls =>
    let ll := pyStrip (pyLower line)
    if ll = "" then expLoopGo ls inSec fh acc
    else if (expStartHeaders.any (fun h => pyStartsWith ll h || ll = h))
        && ll.length < 60 then
      expLoopGo ls true true acc
    else if inSec
        && (expEndHeaders.any (fun h => pyStartsWith ll h || pySubstr h (pyTake 30 ll)))
        && ll.length < 50 then
      (acc.reverse, fh)
    else if inSec then expLoopGo ls inSec fh (pyStrip line :: acc)
    else expLoopGo ls inSec fh acc

/-- `[- ]`. -/
def dashOrSpace : RE :=
  RE.cls (fun c => c = '-' || c = ' ')

/-- The twelve month abbreviations, case-insensitively. -/
def monthsAlt : RE :=
  altL (["jan", "feb", "mar", "apr", "may", "jun", "jul", "aug", "sep",
    "oct", "nov", "dec"].map litCI)

/-- `r'\b(?:at|@)\s+[A-Z]'` (IGNORECASE). -/
def workRE1 : RE :=
  rseq [RE.wb, RE.alt (litCI "at") (litCI "@"), plus sRE, RE.cls Char.isAlpha]

/-- `r'\b(?:Inc|LLC|Ltd|Corp|Company|Co\.|Technologies|Solutions|Services)\b'` (IGNORECASE). -/
def workRE2 : RE :=
  rseq [RE.wb,
    altL [litCI "inc", litCI "llc", litCI "ltd", litCI "corp", litCI "company",
      rseq [litCI "co", chr '.'], litCI "technologies", litCI "solutions",
      litCI "services"],
    RE.wb]

/-- The month–year date-range pattern of `work_indicators` (IGNORECASE). -/
def workRE3 : RE :=
  rseq [RE.wb, monthsAlt, RE.star (RE.cls Char.isAlpha), opt (chr '.'),
    RE.star sRE, repN 4 dRE, RE.star sRE,
    plus (RE.cls (fun c => c = '-' || c = '–' || c = '—' || c.toLower = 't'
      || c.toLower = 'o')),
    RE.star sRE,
    altL ([litCI "present", litCI "current"]
      ++ (["jan", "feb", "mar", "apr", "may", "jun", "jul", "aug", "sep",
        "oct", "nov", "dec"].map litCI))]

/-- `r'\b(?:Intern|Internship|Full[- ]?time|Part[- ]?time|Contract|Remote)\b'` (IGNORECASE). -/
def workRE4 : RE :=
  rseq [RE.wb,
    altL [litCI "intern", litCI "internship",
      rseq [litCI "full", opt dashOrSpace, litCI "time"],
      rseq [litCI "part", opt dashOrSpace, litCI "time"],
      litCI "contract", litCI "remote"],
    RE.wb]

/-- `r'\b(?:hired|employed|joined|worked at|position at|role at)\b'` (IGNORECASE). -/
def workRE5 : RE :=
  rseq [RE.wb,
    altL [litCI "hired", litCI "employed", litCI "joined", litCI "worked at",
      litCI "position at", litCI "role at"],
    RE.wb]

/-- The `work_indicators` patterns, in source order. -/
def workIndicators : List RE :=
  [workRE1, workRE2, workRE3, workRE4, workRE5]

/-- The `non_work_indicators` patterns, in source order. -/
def nonWorkIndicators : List RE :=
  [rseq [RE.wb,
     altL [litCI "course", litCI "coursework", litCI "class",
       litCI "assignment", litCI "homework", litCI "lab", litCI "laboratory"],
     RE.wb],
   rseq [RE.wb,
     altL [litCI "personal project", litCI "side project",
       litCI "hobby project", litCI "academic project"],
     RE.wb],
   rseq [RE.wb, altL [litCI "university", litCI "college", litCI "school"],
     plus sRE, litCI "project", RE.wb],
   rseq [RE.wb,
     altL [litCI "capstone", litCI "thesis", litCI "dissertation",
       litCI "research paper"],
     RE.wb],
   rseq [RE.bol,
     altL [litCI "built", litCI "created", litCI "developed", litCI "designed"],
     plus sRE, altL [litCI "a", litCI "an", litCI "the"], plus sRE, plus wRE,
     plus sRE, RE.alt (litCI "for") (litCI "as"), plus sRE,
     altL [litCI "fun", litCI "learning", litCI "practice"]]]

/-- The per-line acceptance test of `_validate_experience_content`. -/
def validLine (line : String) : Bool :=
  if (pyStrip line).length < 10 then false
  else if nonWorkIndicators.any (fun r => reTest r (pyLower line)) then false
  else workIndicators.any (fun r => reTest r line) || 30 < line.length

/-- `ResumeParserService._validate_experience_content`. -/
def validateExperienceContent (lines : List String) : List String :=
  lines.filter validLine

/-- The `student_indicators` patterns of `_is_entry_level_resume`,
searched on the lowercased text (the patterns are all-lowercase and
applied without IGNORECASE). -/
def studentIndicators : List RE :=
  [rseq [RE.wb, altL [lit "freshman", lit "sophomore", lit "junior",
     lit "senior"], plus sRE, RE.alt (lit "student") (lit "year"), RE.wb],
   rseq [RE.wb, altL [lit "pursuing", lit "currently pursuing",
     lit "expected graduation"], RE.wb],
   rseq [RE.wb, altL [lit "recent graduate", lit "fresh graduate",
     lit "new graduate"], RE.wb],
   rseq [RE.wb, lit "student", plus sRE, lit "at", RE.wb],
   rseq [RE.wb, RE.alt (lit "gpa") (lit "cgpa"),
     RE.star (RE.cls (fun c => c = ':' || pyIsSpace c)),
     RE.cls (fun c => c = '3' || c = '4'), chr '.', dRE],
   rseq [RE.wb, lit "no", plus sRE, opt (rseq [lit "prior", plus sRE]),
     opt (rseq [lit "work", plus sRE]), lit "experience", RE.wb],
   rseq [RE.wb, RE.alt (lit "seeking") (lit "looking for"), plus sRE,
     altL [lit "internship", rseq [lit "entry", dashOrSpace, lit "level"],
       lit "first"],
     RE.wb],
   rseq [RE.wb, altL [lit "eager to learn", lit "willing to learn",
     lit "quick learner"], RE.wb]]

/-- The `work_terms` patterns of `_is_entry_level_resume`.  They are also
searched case-sensitively on the lowercased text, so the second pattern
(`\b(?:Inc|LLC|Ltd|Corp)\b`, uppercase) can never fire there. -/
def workTerms : List RE :=
  [rseq [RE.wb, altL [lit "employed", lit "hired", lit "worked at",
     lit "position at"], RE.wb],
   rseq [RE.wb, altL [lit "Inc", lit "LLC", lit "Ltd", lit "Corp"], RE.wb],
   rseq [RE.wb, altL [lit "salary", lit "compensation", lit "promoted"],
     RE.wb],
   rseq [RE.wb, lit "year", opt (chr 's'), plus sRE,
     opt (rseq [lit "of", plus sRE]), lit "experience", RE.wb]]

/-- `ResumeParserService._is_entry_level_resume`. -/
def isEntryLevelResume (text : String) : Bool :=
  let text_lower := pyLower text
  let student_score := studentIndicators.countP (fun r => reTest r text_lower)
  let has_work_terms := workTerms.any (fun r => reTest r text_lower)
  2 ≤ student_score && !has_work_terms

/-- The company-suffix alternation of `employment_pattern` (case-sensitive). -/
def companySuffixCS : RE :=
  altL [lit "Inc", lit "LLC", lit "Ltd", lit "Corp", lit "Company",
    rseq [lit "Co", chr '.'], lit "Technologies", lit "Solutions",
    lit "Services"]

/-- The `employment_pattern` of `_extract_experience_fallback`
(case-sensitive, as `re.findall` is called without flags). -/
def employmentRE : RE :=
  rseq [opt (altL [lit "Software", lit "Data", lit "Web",
      rseq [lit "Full", opt dashOrSpace, lit "Stack"], lit "Frontend",
      lit "Backend", lit "Mobile", lit "DevOps", lit "Cloud", lit "ML",
      lit "AI"]),
    opt sRE,
    altL [lit "Developer", lit "Engineer", lit "Analyst", lit "Designer",
      lit "Manager", lit "Architect", lit "Consultant", lit "Specialist"],
    plus (RE.cls (fun c => pyIsSpace c || c = ',')),
    altL [lit "at", lit "@", RE.cls (fun c => c = '-' || c = '–' || c = '—')],
    RE.star sRE,
    RE.cls Char.isUpper,
    plus (RE.cls (fun c => c.isAlpha || pyIsSpace c || c = '&' || c = ',')),
    opt companySuffixCS]

/-- The `intern_pattern` of `_extract_experience_fallback` (case-sensitive). -/
def internRE : RE :=
  rseq [opt (altL [lit "Software", lit "Data", lit "Web", lit "Engineering",
      lit "Development"]),
    opt sRE, lit "Intern", opt (lit "ship"),
    plus (RE.cls (fun c => pyIsSpace c || c = ',')),
    altL [lit "at", lit "@", RE.cls (fun c => c = '-' || c = '–' || c = '—')],
    RE.star sRE, RE.cls Char.isUpper,
    plus (RE.cls (fun c => c.isAlpha || pyIsSpace c || c = '&' || c = ','))]

/-- `ResumeParserService._extract_experience_fallback`. -/
def extractExperienceFallback (text : String) : List String :=
  let info1 := ((reFindAll employmentRE text).take 3).foldl
    (fun acc m =>
      let cleaned := pyStrip m
      if 15 < cleaned.length && cleaned ∉ acc then acc ++ [cleaned] else acc) []
  ((reFindAll internRE text).take 2).foldl
    (fun acc m =>
      let cleaned := pyStrip m
      if 10 < cleaned.length && cleaned ∉ acc then acc ++ [cleaned] else acc)
    info1

/-- `ResumeParserService._extract_experience`. -/
def extractExperience (text : String) : String :=
  let lines := sectionLines expSplitKws text
  let lp := expLoopGo lines false false []
  let experience_lines := lp.1
  let found_experience_header := lp.2
  let validated := validateExperienceContent experience_lines
  if !experience_lines.isEmpty && !validated.isEmpty then
    truncate1000 (String.intercalate " | " validated)
  else if found_experience_header then "No professional experience"
  else if isEntryLevelResume text then "No professional experience"
  else
    let experience_info := extractExperienceFallback text
    if !experience_info.isEmpty then
      truncate1000 (String.intercalate " | " experience_info)
    else "No professional experience"

/-! ### Years of experience (`_estimate_experience_years`) -/

/-- `r'(\d+)\+?\s*years?\s*(?:of\s*)?experience'` (IGNORECASE). -/
def yearsRE1 : RE :=
  rseq [plus dRE, opt (chr '+'), RE.star sRE, litCI "year", opt (chrCI 's'),
    RE.star sRE, opt (rseq [litCI "of", RE.star sRE]), litCI "experience"]

/-- `r'experience[:\s]*(\d+)\+?\s*years?'` (IGNORECASE). -/
def yearsRE2 : RE :=
  rseq [litCI "experience", RE.star (RE.cls (fun c => c = ':' || pyIsSpace c)),
    plus dRE, opt (chr '+'), RE.star sRE, litCI "year", opt (chrCI 's')]

/-- `r'(\d+)\+?\s*years?\s*(?:in|of)\s*(?:software|development|programming)'` (IGNORECASE). -/
def yearsRE3 : RE :=
  rseq [plus dRE, opt (chr '+'), RE.star sRE, litCI "year", opt (chrCI 's'),
    RE.star sRE, RE.alt (litCI "in") (litCI "of"), RE.star sRE,
    altL [litCI "software", litCI "development", litCI "programming"]]

/-- The `no_exp_patterns` of `_estimate_experience_years` (IGNORECASE). -/
def noExpPatterns : List RE :=
  [rseq [RE.wb, litCI "no", plus sRE, opt (rseq [litCI "prior", plus sRE]),
     opt (rseq [litCI "work", plus sRE]), litCI "experience", RE.wb],
   rseq [RE.wb, litCI "fresher", RE.wb],
   rseq [RE.wb, litCI "fresh graduate", RE.wb],
   rseq [RE.wb, litCI "entry", dashOrSpace, litCI "level", RE.wb]]

/-- `float(match.group(1))` for patterns whose group 1 is the leading
digit run of the whole match. -/
def leadingDigitsVal (m : String) : ℚ :=
  (digitsToNat (m.data.takeWhile Char.isDigit) : ℚ)

/-- `float(match.group(1))` for the `experience[:\s]*(\d+)...` pattern:
the digits after the keyword and the greedy separator run. -/
def afterExperienceDigitsVal (m : String) : ℚ :=
  (digitsToNat (((m.data.drop 10).dropWhile
    (fun c => c = ':' || pyIsSpace c)).takeWhile Char.isDigit) : ℚ)

/-- `ResumeParserService._estimate_experience_years`. -/
def estimateExperienceYears (text : String) : Option ℚ :=
  if isEntryLevelResume text then some 0
  else
    match reSearch yearsRE1 text with
    | some m => some (leadingDigitsVal m)
    | none =>
      match reSearch yearsRE2 text with
      | some m => some (afterExperienceDigitsVal m)
      | none =>
        match reSearch yearsRE3 text with
        | some m => some (leadingDigitsVal m)
        | none =>
          if noExpPatterns.any (fun r => reTest r text) then some 0
          else none

/-! ## Helper lemmas -/

/-- A similarity accepted by the semantic guard is at least the 0.6 threshold. -/
theorem semanticGuard_le (model : Option SimOracle) (cands : List String)
    (req : String) (q : ℚ) (h : semanticGuard model cands req = some q) :
    (3 : ℚ)/5 ≤ q := by
  unfold semanticGuard at h
  rcases model with _ | sim
  · simp at h
  · by_cases hc : cands.isEmpty <;> simp [hc] at h
    rcases hs : sim req cands with _ | best <;> rw [hs] at h
    · simp at h
    · by_cases hb : (3 : ℚ)/5 ≤ best <;> simp [hb] at h
      exact h ▸ hb

/-- Each loop iteration of `_calculate_skill_match` keeps the running
`matched_count` nonnegative. -/
theorem skillStep_nonneg (model : Option SimOracle) (c cl : List String)
    (acc : List SkillMatch × ℚ) (r : String) (h : 0 ≤ acc.2) :
    0 ≤ (skillStep model c cl acc r).2 := by
  unfold skillStep
  dsimp only
  split_ifs with h1 h2
  · dsimp only
    linarith
  · dsimp only
    linarith
  · rcases hg : semanticGuard model c r with _ | conf <;> simp only [hg]
    · exact h
    · have hq := semanticGuard_le model c r conf hg
      show (0 : ℚ) ≤ acc.2 + conf
      linarith

/-- The fold of `_calculate_skill_match` keeps `matched_count` nonnegative. -/
theorem skillFold_nonneg (model : Option SimOracle) (c cl : List String)
    (reqs : List String) (acc : List SkillMatch × ℚ) (h : 0 ≤ acc.2) :
    0 ≤ (reqs.foldl (skillStep model c cl) acc).2 := by
  induction reqs generalizing acc with
  | nil => simpa using h
  | cons r rs ih =>
    simpa using ih _ (skillStep_nonneg model c cl acc r h)

/-- The skill score of `_calculate_skill_match` lies in `[0, 100]`. -/
theorem calculateSkillMatch_bounds (model : Option SimOracle)
    (c reqs : List String) :
    0 ≤ (calculateSkillMatch model c reqs).2 ∧
      (calculateSkillMatch model c reqs).2 ≤ 100 := by
  unfold calculateSkillMatch
  by_cases he : reqs.isEmpty
  · simp [he]
  · have hn : 0 < (reqs.length : ℚ) := by
      have h1 : reqs ≠ [] := by simpa [List.isEmpty_iff] using he
      have h2 : 0 < reqs.length := List.length_pos.mpr h1
      exact_mod_cast h2
    have hmc : 0 ≤ (reqs.foldl (skillStep model c (c.map pyLower)) ([], 0)).2 :=
      skillFold_nonneg model c (c.map pyLower) reqs ([], 0) le_rfl
    rw [if_neg he]
    dsimp only
    constructor
    · refine le_min ?_ (by norm_num)
      positivity
    · exact min_le_right _ _

/-- The experience score of `_calculate_experience_score` lies in `[0, 100]`. -/
theorem calculateExperienceScore_bounds (t : String) (y : Option ℚ)
    (req : String) :
    0 ≤ calculateExperienceScore t y req ∧
      calculateExperienceScore t y req ≤ 100 := by
  unfold calculateExperienceScore
  split_ifs with h0
  · norm_num
  · split
    · norm_num
    · split
      · dsimp only; split_ifs <;> norm_num
      · dsimp only; split_ifs <;> norm_num

/-- The education score of `_calculate_education_score` lies in `[0, 100]`. -/
theorem calculateEducationScore_bounds (t req : String) :
    0 ≤ calculateEducationScore t req ∧ calculateEducationScore t req ≤ 100 := by
  unfold calculateEducationScore
  dsimp only
  split_ifs <;> norm_num

/-- One loop iteration appends exactly the cascade record for its skill. -/
theorem skillStep_fst (model : Option SimOracle) (c : List String)
    (acc : List SkillMatch × ℚ) (r : String) :
    (skillStep model c (c.map pyLower) acc r).1 =
      acc.1 ++ [skillMatchRecordFor model c r] := by
  unfold skillStep skillMatchRecordFor
  dsimp only
  split_ifs
  · rfl
  · rfl
  · rcases hg : semanticGuard model c r with _ | conf <;> simp only [hg]

/-- The fold of `_calculate_skill_match` appends one cascade record per
required skill, in order. -/
theorem skillFold_fst (model : Option SimOracle) (c : List String)
    (reqs : List String) (acc : List SkillMatch × ℚ) :
    (reqs.foldl (skillStep model c (c.map pyLower)) acc).1 =
      acc.1 ++ reqs.map (skillMatchRecordFor model c) := by
  induction reqs generalizing acc with
  | nil => simp
  | cons r rs ih =>
    rw [List.foldl_cons, ih, List.map_cons]
    rw [show (skillStep model c (c.map pyLower) acc r).1 =
      acc.1 ++ [skillMatchRecordFor model c r] from skillStep_fst model c acc r]
    simp

/-- The dedup loop never emits an entry whose lowercase form is in `seen`,
and its output has pairwise-distinct lowercase forms. -/
theorem dedupCIGo_fresh_nodup (l : List String) :
    ∀ seen : List String,
      (∀ x ∈ dedupCIGo l seen, pyLower x ∉ seen) ∧
        ((dedupCIGo l seen).map pyLower).Nodup := by
  induction l with
  | nil => intro seen; simp [dedupCIGo]
  | cons s rest ih =>
    intro seen
    by_cases hs : pyLower s ∈ seen
    · simp only [dedupCIGo, if_pos hs]
      exact ih seen
    · simp only [dedupCIGo, if_neg hs]
      obtain ⟨ih1, ih2⟩ := ih (pyLower s :: seen)
      constructor
      · intro x hx
        rcases List.mem_cons.mp hx with h | h
        · subst h; exact hs
        · intro hmem
          exact ih1 x h (List.mem_cons_of_mem _ hmem)
      · rw [List.map_cons]
        refine List.nodup_cons.mpr ⟨?_, ih2⟩
        intro hmem
        rcases List.mem_map.mp hmem with ⟨y, hy, hyy⟩
        exact ih1 y hy (by rw [hyy]; exact List.mem_cons_self _ _)

/-- The dedup loop yields a subsequence of its input. -/
theorem dedupCIGo_sublist (l : List String) :
    ∀ seen : List String, (dedupCIGo l seen).Sublist l := by
  induction l with
  | nil => intro seen; simp [dedupCIGo]
  | cons s rest ih =>
    intro seen
    by_cases hs : pyLower s ∈ seen
    · simp only [dedupCIGo, if_pos hs]
      exact (ih seen).trans (List.sublist_cons_self s rest)
    · simp only [dedupCIGo, if_neg hs]
      exact (ih (pyLower s :: seen)).cons₂ s

/-- Once the experience loop has seen a start header, the flag stays set. -/
theorem expLoopGo_fh_true (lines : List String) :
    ∀ (inSec : Bool) (acc : List String),
      (expLoopGo lines inSec true acc).2 = true := by
  induction lines with
  | nil => intro inSec acc; rfl
  | cons line ls ih =>
    intro inSec acc
    unfold expLoopGo
    dsimp only
    split_ifs <;> first | rfl | apply ih

/-- If the experience loop never saw a start header, it collected nothing
beyond its accumulator. -/
theorem expLoopGo_no_header (lines : List String) :
    ∀ acc : List String,
      (expLoopGo lines false false acc).2 = false →
        (expLoopGo lines false false acc).1 = acc.reverse := by
  induction lines with
  | nil => intro acc _; rfl
  | cons line ls ih =>
    intro acc h
    unfold expLoopGo at h ⊢
    dsimp only at h ⊢
    split_ifs at h ⊢ with h1 h2 h3 h4
    · exact ih acc h
    · rw [expLoopGo_fh_true] at h
      exact absurd h (by simp)
    · rfl
    · exact h4.elim
    · exact ih acc h

/-! ## Claim theorems -/

/-- C1: with an empty required-skills list the skill matcher returns an empty
match list and `skillScore = 100`, so the overall score reduces to
`0.2 × experienceScore + 0.1 × educationScore + 70`. -/
theorem empty_requirements_full_skill_score (model : Option SimOracle)
    (resume : Resume) (experience_required education_required : String) :
    calculateSkillMatch model resume.parsed_data.skills [] = ([], 100) ∧
    overallScore model resume ⟨[], experience_required, education_required⟩ =
      calculateExperienceScore resume.parsed_data.experience
          resume.parsed_data.years_of_experience experience_required * (2/10)
        + calculateEducationScore resume.parsed_data.education
          education_required * (1/10) + 70 := by
  refine ⟨rfl, ?_⟩
  show (100 : ℚ) * (7/10) + _ * (2/10) + _ * (1/10) = _
  ring

/-- C2: the recommendation is determined from the unrounded overall score by
exact inclusive thresholds at 75, 60 and 45. -/
theorem recommendation_thresholds (model : Option SimOracle) (resume : Resume)
    (job : JobDescription) :
    (matchSingleCandidate model resume job).recommendation =
      (if 75 ≤ overallScore model resume job then "highly_recommended"
       else if 60 ≤ overallScore model resume job then "recommended"
       else if 45 ≤ overallScore model resume job then "maybe"
       else "not_recommended") := rfl

/-- C3: skill matching produces exactly one record per required skill, and
each record is determined by the first-hit-wins cascade: exact
(confidence 1.0), then partial substring (confidence 0.8), then semantic
with similarity at least 0.6 (confidence = similarity), else a non-match
with confidence 0.0. -/
theorem skill_match_first_hit_wins (model : Option SimOracle)
    (candidate_skills required_skills : List String) :
    (calculateSkillMatch model candidate_skills required_skills).1 =
        required_skills.map (skillMatchRecordFor model candidate_skills) ∧
      (calculateSkillMatch model candidate_skills required_skills).1.length =
        required_skills.length := by
  have hmain : (calculateSkillMatch model candidate_skills required_skills).1 =
      required_skills.map (skillMatchRecordFor model candidate_skills) := by
    unfold calculateSkillMatch
    by_cases he : required_skills.isEmpty
    · have : required_skills = [] := by simpa [List.isEmpty_iff] using he
      simp [this]
    · rw [if_neg he]
      dsimp only
      rw [skillFold_fst]
      simp
  exact ⟨hmain, by rw [hmain, List.length_map]⟩

/-- C4: every sub-score and the weighted overall score lie in `[0, 100]`. -/
theorem score_bounds (model : Option SimOracle) (resume : Resume)
    (job : JobDescription) :
    (0 ≤ (matchSingleCandidate model resume job).score_breakdown.skill_score ∧
      (matchSingleCandidate model resume job).score_breakdown.skill_score ≤ 100) ∧
    (0 ≤ (matchSingleCandidate model resume job).score_breakdown.experience_score ∧
      (matchSingleCandidate model resume job).score_breakdown.experience_score ≤ 100) ∧
    (0 ≤ (matchSingleCandidate model resume job).score_breakdown.education_score ∧
      (matchSingleCandidate model resume job).score_breakdown.education_score ≤ 100) ∧
    (0 ≤ overallScore model resume job ∧ overallScore model resume job ≤ 100) := by
  have hs := calculateSkillMatch_bounds model resume.parsed_data.skills
    job.required_skills
  have he := calculateExperienceScore_bounds resume.parsed_data.experience
    resume.parsed_data.years_of_experience job.experience_required
  have hd := calculateEducationScore_bounds resume.parsed_data.education
    job.education_required
  have h1 : (matchSingleCandidate model resume job).score_breakdown.skill_score =
      (calculateSkillMatch model resume.parsed_data.skills job.required_skills).2 :=
    rfl
  have h2 : (matchSingleCandidate model resume job).score_breakdown.experience_score =
      calculateExperienceScore resume.parsed_data.experience
        resume.parsed_data.years_of_experience job.experience_required := rfl
  have h3 : (matchSingleCandidate model resume job).score_breakdown.education_score =
      calculateEducationScore resume.parsed_data.education
        job.education_required := rfl
  have h4 : overallScore model resume job =
      (calculateSkillMatch model resume.parsed_data.skills job.required_skills).2
          * (7/10)
        + calculateExperienceScore resume.parsed_data.experience
          resume.parsed_data.years_of_experience job.experience_required * (2/10)
        + calculateEducationScore resume.parsed_data.education
          job.education_required * (1/10) := rfl
  rw [h1, h2, h3, h4]
  refine ⟨hs, he, hd, ?_, ?_⟩
  · nlinarith [hs.1, he.1, hd.1]
  · nlinarith [hs.2, he.2, hd.2]

/-- C5: batch matching scores each candidate exactly once (the output is a
permutation of the one-result-per-resume list), sorts descending by the
result score, and the sort is stable: results with equal scores keep their
input relative order (their filtered subsequences coincide). -/
theorem ranking_sorted_and_stable (model : Option SimOracle)
    (resumes : List Resume) (job : JobDescription) :
    (matchCandidates model resumes job).Perm (scoredResults model resumes job) ∧
      (matchCandidates model resumes job).Pairwise
        (fun a b => b.score ≤ a.score) ∧
      ∀ s : ℚ, (matchCandidates model resumes job).filter
          (fun x => decide (x.score = s)) =
        (scoredResults model resumes job).filter
          (fun x => decide (x.score = s)) := by
  have htrans : ∀ a b c : MatchResult,
      (fun a b : MatchResult => decide (b.score ≤ a.score)) a b = true →
      (fun a b : MatchResult => decide (b.score ≤ a.score)) b c = true →
      (fun a b : MatchResult => decide (b.score ≤ a.score)) a c = true := by
    intro a b c hab hbc
    simp only [decide_eq_true_eq] at *
    exact le_trans hbc hab
  have htot : ∀ a b : MatchResult,
      ((fun a b : MatchResult => decide (b.score ≤ a.score)) a b
        || (fun a b : MatchResult => decide (b.score ≤ a.score)) b a) = true := by
    intro a b
    simpa using le_total b.score a.score
  refine ⟨List.mergeSort_perm _ _, ?_, ?_⟩
  · have hp := List.sorted_mergeSort htrans htot
      (resumes.map (fun r => matchSingleCandidate model r job))
    exact hp.imp (fun h => by simpa using h)
  · intro s
    have hmem : ∀ x ∈ (scoredResults model resumes job).filter
        (fun x => decide (x.score = s)), x.score = s := by
      intro x hx
      simpa using (List.mem_filter.mp hx).2
    have hpw : ((scoredResults model resumes job).filter
        (fun x => decide (x.score = s))).Pairwise
        (fun a b => (fun a b : MatchResult => decide (b.score ≤ a.score)) a b
          = true) := by
      refine List.pairwise_of_forall_mem_list ?_
      intro a ha b hb
      simp only [decide_eq_true_eq]
      rw [hmem a ha, hmem b hb]
    have hsl : ((scoredResults model resumes job).filter
        (fun x => decide (x.score = s))).Sublist
        (matchCandidates model resumes job) :=
      List.sublist_mergeSort htrans htot hpw
        (List.filter_sublist (scoredResults model resumes job))
    have hself : (((scoredResults model resumes job).filter
        (fun x => decide (x.score = s))).filter
        (fun x => decide (x.score = s))) =
        ((scoredResults model resumes job).filter
          (fun x => decide (x.score = s))) := by
      refine List.filter_eq_self.mpr ?_
      intro a ha
      exact (List.mem_filter.mp ha).2
    have hsl2 : ((scoredResults model resumes job).filter
        (fun x => decide (x.score = s))).Sublist
        ((matchCandidates model resumes job).filter
          (fun x => decide (x.score = s))) := by
      have hf := hsl.filter (fun x => decide (x.score = s))
      rwa [hself] at hf
    have hlen : ((scoredResults model resumes job).filter
        (fun x => decide (x.score = s))).length =
        ((matchCandidates model resumes job).filter
          (fun x => decide (x.score = s))).length := by
      have hperm : (matchCandidates model resumes job).Perm
          (scoredResults model resumes job) := List.mergeSort_perm _ _
      exact ((hperm.filter (fun x => decide (x.score = s))).length_eq).symm
    exact (hsl2.eq_of_length hlen).symm

/-- C6: the extracted skills list holds only display-formatted whole-word
lexicon matches of the text (multi-letter entries title-cased, 1–2 letter
entries upper-cased by `formatSkill`), is deduplicated case-insensitively,
keeps the first-seen order (it is a subsequence of the raw match list),
and has at most 20 entries. -/
theorem skills_extraction_shape (text : String) :
    (extractSkills text).length ≤ 20 ∧
      ((extractSkills text).map pyLower).Nodup ∧
      (extractSkills text).Sublist (foundSkills text) ∧
      (extractSkills text).Forall (fun entry => ∃ skill,
        skill ∈ skillsDatabase ∧
        reTest (wordMatchRE skill) (pyLower text) = true ∧
        entry = formatSkill skill) := by
  have hsub : (extractSkills text).Sublist (foundSkills text) :=
    (List.take_sublist _ _).trans (dedupCIGo_sublist (foundSkills text) [])
  refine ⟨?_, ?_, hsub, ?_⟩
  · exact List.length_take_le _ _
  · have hnd := (dedupCIGo_fresh_nodup (foundSkills text) []).2
    exact ((List.take_sublist 20 _).map pyLower).nodup hnd
  · rw [List.forall_iff_forall_mem]
    intro entry hentry
    have hmem : entry ∈ foundSkills text := hsub.subset hentry
    unfold foundSkills at hmem
    rcases List.mem_map.mp hmem with ⟨skill, hs, hfmt⟩
    rcases List.mem_filter.mp hs with ⟨hdb, htest⟩
    exact ⟨skill, hdb, htest, hfmt.symm⟩

/-- C7: if the experience loop saw a section header but nothing it
collected passes work-content validation, or if it saw no header and the
entry-level/student heuristics fire, the extracted experience is the
literal "No professional experience"; and under the entry-level heuristics
the estimated years of experience is 0. -/
theorem no_experience_sentinel (text : String) :
    (((expLoopGo (sectionLines expSplitKws text) false false []).2 = true ∧
        validateExperienceContent
          (expLoopGo (sectionLines expSplitKws text) false false []).1 = [] ∨
      (expLoopGo (sectionLines expSplitKws text) false false []).2 = false ∧
        isEntryLevelResume text = true) →
      extractExperience text = "No professional experience") ∧
    (isEntryLevelResume text = true →
      estimateExperienceYears text = some 0) := by
  constructor
  · intro h
    rcases h with ⟨hf, hv⟩ | ⟨hf, he⟩
    · simp [extractExperience, hv, hf]
    · have hlines : (expLoopGo (sectionLines expSplitKws text) false false []).1
          = [] := expLoopGo_no_header _ _ hf
      simp [extractExperience, hlines, hf, he, validateExperienceContent]
  · intro he
    simp [estimateExperienceYears, he]

/-- Witness for C7: a student-resume text with no experience header. -/
theorem no_experience_sentinel_witness :
    extractExperience "pursuing b.tech\ngpa: 3.8\nseeking internship" =
        "No professional experience" ∧
      estimateExperienceYears "pursuing b.tech\ngpa: 3.8\nseeking internship" =
        some 0 := by
  constructor
  · exact (no_experience_sentinel _).1 (Or.inr ⟨by decide, by decide⟩)
  · exact (no_experience_sentinel _).2 (by decide)

/-- C8: every field extractor is a total function and degrades to its
documented default when nothing matches: name "Unknown", email and phone
empty, education empty, experience the no-experience sentinel,
LinkedIn/GitHub `none`, years of experience `none`. -/
theorem extraction_defaults (ents5 docEnts : List Ent) (text : String) :
    (nameStrategy1 ents5 = none →
      nameStrategy2 (pySplitNl (pyStrip text)) = none →
      extractNameFromEmail (extractEmail text) = "" →
      nameStrategy4 docEnts = none →
      extractName ents5 docEnts text = "Unknown") ∧
    (reSearch emailRE text = none → extractEmail text = "") ∧
    (reSearch phoneRE1 text = none → reSearch phoneRE2 text = none →
      reSearch phoneRE3 text = none → extractPhone text = "") ∧
    (eduLoopGo (sectionLines eduSplitKws text) false [] = [] →
      eduFallbackInfo text = [] → extractEducation text = "") ∧
    (validateExperienceContent
        (expLoopGo (sectionLines expSplitKws text) false false []).1 = [] →
      extractExperienceFallback text = [] →
      extractExperience text = "No professional experience") ∧
    (reSearch linkedinRE text = none → extractLinkedin text = none) ∧
    (reSearch githubRE text = none → extractGithub text = none) ∧
    (isEntryLevelResume text = false → reSearch yearsRE1 text = none →
      reSearch yearsRE2 text = none → reSearch yearsRE3 text = none →
      noExpPatterns.any (fun r => reTest r text) = false →
      estimateExperienceYears text = none) := by
  refine ⟨?_, ?_, ?_, ?_, ?_, ?_, ?_, ?_⟩
  · intro h1 h2 h3 h4
    simp only [extractName, h1, h2, h4]
    by_cases hemail : extractEmail text = ""
    · simp [hemail]
    · simp [hemail, h3]
  · intro h
    simp [extractEmail, h]
  · intro h1 h2 h3
    simp [extractPhone, h1, h2, h3, Option.orElse]
  · intro h1 h2
    simp [extractEducation, h1, h2]
  · intro hval hfb
    by_cases hf : (expLoopGo (sectionLines expSplitKws text) false false []).2 <;>
      by_cases he : isEntryLevelResume text <;>
      simp [extractExperience, hval, hfb, hf, he]
  · intro h
    simp [extractLinkedin, h]
  · intro h
    simp [extractGithub, h]
  · intro h0 hp1 hp2 hp3 hno
    simp [estimateExperienceYears, h0, hp1, hp2, hp3, hno]

/-- Witness for C8 at a one-character text where nothing matches. -/
theorem extraction_defaults_witness :
    extractName [] [] "?" = "Unknown" ∧
      extractEmail "?" = "" ∧
      extractPhone "?" = "" ∧
      extractEducation "?" = "" ∧
      extractExperience "?" = "No professional experience" ∧
      extractLinkedin "?" = none ∧
      extractGithub "?" = none ∧
      estimateExperienceYears "?" = none := by
  obtain ⟨h1, h2, h3, h4, h5, h6, h7, h8⟩ := extraction_defaults [] [] "?"
  refine ⟨h1 rfl (by decide) (by decide) rfl, h2 (by decide), ?_, ?_, ?_, ?_, ?_, ?_⟩
  · exact h3 (by decide) (by decide) (by decide)
  · exact h4 (by decide) (by decide)
  · exact h5 (by decide) (by decide)
  · exact h6 (by decide)
  · exact h7 (by decide)
  · exact h8 (by decide) (by decide) (by decide) (by decide) (by decide)

/-- C9: the blend step sets
`finalScore = overallScore×0.6 + sentimentScore×0.2 + confidenceScore×0.2`
and leaves the overall score, the score breakdown and the recommendation of
the screening result unchanged. -/
theorem blend_final_score_frame (sr : ScreeningResult) (iid : String)
    (analysis : SentimentAnalysisOut) :
    (blendStep sr iid analysis).final_score =
        some (sr.overall_score * (6/10) + analysis.sentiment_score * (2/10)
          + analysis.confidence_score * (2/10)) ∧
      (blendStep sr iid analysis).overall_score = sr.overall_score ∧
      (blendStep sr iid analysis).score_breakdown = sr.score_breakdown ∧
      (blendStep sr iid analysis).recommendation = sr.recommendation :=
  ⟨rfl, rfl, rfl, rfl⟩

/-- C10: a transcript with no sentences after splitting is handled totally:
the division by the sentence count is guarded and the analysis returns
score 50, overall sentiment "neutral" and empty phrase lists. -/
theorem empty_transcript_neutral (classifier : Option SentOracle) (t : String)
    (h : splitIntoSentences t = []) :
    analyzeSentiment classifier (splitIntoSentences t) =
      (50, "neutral", [], []) := by
  rw [h]; rfl

/-- Witness for C10 at the empty transcript. -/
theorem empty_transcript_neutral_witness :
    splitIntoSentences "" = [] ∧
      analyzeSentiment none (splitIntoSentences "") = (50, "neutral", [], []) :=
  ⟨rfl, empty_transcript_neutral none "" rfl⟩

end SmartResume
